import Mathlib

/-!
Shallow embedding of the screen-navigation and table-fill core of the
`sap_gui_engine` package (files `transaction_runner.py` and
`ui/table_control.py`), together with theorems settling the frozen claims
about its specification.

Driver side effects (element lookup, text writes, virtual keys, popup
dismissal, status checks) are recorded as explicit event traces; fallible
Python code paths are embedded as `Except` values whose error constructors
name the Python exception class raised.
-/

namespace SapGuiEngine

/-- Python exception classes that the embedded code paths can raise.
Constructors carry no message: the claims only distinguish exception classes. -/
inductive PyError where
  | valueError
  | typeError
  | indexError
  | attributeError
  | elementConfigurationError
  | actionConfigurationError
  | screenMappingError
  | sapTableConfigurationError
  | sapStatusBarError
  | sapElementNotFound
  | driverError
deriving DecidableEq, Repr

/-- Virtual keys used by the embedded code (`constants.VKey` members referenced
from `table_control.py` and `transaction_runner.py`; only the identity of each
key matters to the claims, not its numeric value). -/
inductive VKey where
  | ENTER
  | PAGE_DOWN
  | F3
deriving DecidableEq, Repr

/-- One driver operation, recorded in order of execution. -/
inductive Ev where
  | readColumns
  | readVisibleRowCount
  | readScrollMax
  | setScrollPos (pos : Nat)
  | refresh
  | getCell (row col : Nat)
  | cellSetFocus (row col : Nat)
  | setCellText (row col : Nat) (value : String)
  | sendVKey (key : VKey)
  | pressEnter
  | dismissPopups
  | raiseIfErrorDialog
  | raiseForStatus
  | findById (id : String)
  | logWarning
  | setText (id : String) (name : String) (value : String)
  | callFunc (name : String)
  | tableFill (name : String)
  | skipDuplicate (name : String)
deriving DecidableEq, Repr

/-! ## Python string primitives

Structurally recursive embeddings of the Python string operations the source
uses (`str.split`, `str.lower`, `str.strip`, `str.startswith`, `"_".join`),
so that concrete claims evaluate inside the kernel. -/

/-- `str.split(sep)` for a one-character separator: accumulator holds the
current field reversed. -/
def pySplitGo (sep : Char) : List Char → List Char → List String
  | [], acc => [String.mk acc.reverse]
  | c :: cs, acc =>
    if c = sep then String.mk acc.reverse :: pySplitGo sep cs []
    else pySplitGo sep cs (c :: acc)

/-- `str.split(sep)` for a one-character separator (never returns `[]`). -/
def pySplit (sep : Char) (s : String) : List String :=
  pySplitGo sep s.data []

/-- `str.lower()` (ASCII-adequate, as in the source's usage). -/
def pyLower (s : String) : String :=
  String.mk (s.data.map Char.toLower)

/-- `str.strip()`: remove leading and trailing whitespace. -/
def pyStrip (s : String) : String :=
  String.mk (((s.data.dropWhile Char.isWhitespace).reverse.dropWhile Char.isWhitespace).reverse)

/-- `str.startswith(pre)`. -/
def pyStartsWith (pre s : String) : Bool :=
  pre.data.isPrefixOf s.data

/-- `sep.join(parts)` for separator `"_"`. -/
def pyJoinUnderscore : List String → String
  | [] => ""
  | [x] => x
  | x :: xs => x ++ "_" ++ pyJoinUnderscore xs

/-! ## Screen-order resolution (`transaction_runner.py`, module level)

`ActionType` is a Python `StrEnum`; `actionTypeOfString` embeds the
`ActionType(value)` enum constructor (raising `ValueError`, here `none`, on an
unrecognized value). -/

inductive ActionType where
  | CLICK
  | PRESS_ENTER
  | DISMISS_POPUPS
  | BACK
  | SEND_VKEY
deriving DecidableEq, Repr

/-- `ActionType(value)`: look an `ActionType` member up by its string value. -/
def actionTypeOfString : String → Option ActionType
  | "click" => some ActionType.CLICK
  | "press_enter" => some ActionType.PRESS_ENTER
  | "dismiss_popups" => some ActionType.DISMISS_POPUPS
  | "back" => some ActionType.BACK
  | "send_vkey" => some ActionType.SEND_VKEY
  | _ => none

/-- `Action` pydantic model (only the fields the claims touch). -/
structure Action where
  type : ActionType
  target_id : Option String
  vkey : Option Nat
deriving DecidableEq, Repr

/-- `ScreenOrderItem` pydantic model. -/
structure ScreenOrderItem where
  name : String
  table_columns : Option (List (String × List String))
deriving DecidableEq, Repr

/-- A raw entry of the `screen_order` constructor argument: either a plain
string or a dict (already validated into a `ScreenOrderItem`). -/
inductive RawEntry where
  | str (s : String)
  | dict (item : ScreenOrderItem)
deriving DecidableEq, Repr

/-- A resolved entry of the built screen order. -/
inductive OrderElem where
  | screen (item : ScreenOrderItem)
  | action (a : Action)
deriving DecidableEq, Repr

/-- The body executed by `_build_screen_order` for a string entry that starts
with `"ACTION_"`.  Mirrors the source exactly, including the fall-through after
the CLICK branch: after appending the decoded click action the code goes on to
evaluate `ActionType("_".join(parts[1:]).lower())`, which raises `ValueError`
whenever the joined string is not a valid action-type value. -/
def decodeActionString (s : String) : Except PyError (List OrderElem) :=
  let parts := pySplit '_' s
  match parts.get? 1 with
  | none => .error PyError.indexError
  | some p1 =>
    if pyLower p1 = "click" then
      match parts.get? 2 with
      | none => .error PyError.indexError
      | some target =>
        let clickAction := OrderElem.action ⟨ActionType.CLICK, some target, none⟩
        let joined := pyLower (pyJoinUnderscore (parts.drop 1))
        match actionTypeOfString joined with
        | none => .error PyError.valueError
        | some second => .ok [clickAction, OrderElem.action ⟨second, none, none⟩]
    else
      let joined := pyLower (pyJoinUnderscore (parts.drop 1))
      match actionTypeOfString joined with
      | none => .error PyError.valueError
      | some second => .ok [OrderElem.action ⟨second, none, none⟩]

/-- `_build_screen_order`: resolve raw screen-order entries into screen
references and bare actions.  A raised exception discards the partial result,
as in Python. -/
def buildScreenOrder : List RawEntry → Except PyError (List OrderElem)
  | [] => .ok []
  | RawEntry.str s :: rest =>
    if pyStartsWith "ACTION_" s then
      match decodeActionString s with
      | .error e => .error e
      | .ok elems =>
        match buildScreenOrder rest with
        | .error e => .error e
        | .ok r => .ok (elems ++ r)
    else
      match buildScreenOrder rest with
      | .error e => .error e
      | .ok r => .ok (OrderElem.screen ⟨s, none⟩ :: r)
  | RawEntry.dict item :: rest =>
    match buildScreenOrder rest with
    | .error e => .error e
    | .ok r => .ok (OrderElem.screen item :: r)

/-- The `screen_order` initialization line of `TransactionRunner.__init__`:
`_build_screen_order(screen_order) or _build_screen_order(list(screen_map.keys()))`.
When `screen_order` is the default `None`, `_build_screen_order` iterates
`None` and raises `TypeError` before the `or` fallback can apply; the fallback
is reached only when the first call returns an empty (falsy) list. -/
def initScreenOrder (screen_order : Option (List RawEntry)) (screenMapKeys : List String) :
    Except PyError (List OrderElem) :=
  match screen_order with
  | none => .error PyError.typeError
  | some so =>
    match buildScreenOrder so with
    | .error e => .error e
    | .ok r =>
      if r.isEmpty then buildScreenOrder (screenMapKeys.map RawEntry.str) else .ok r

/-! ## Table Filler (`ui/table_control.py`, class `GuiTableControl`) -/

/-- Python truthiness of an optional list argument (`None` and `[]` are falsy). -/
def truthyList (o : Option (List String)) : Bool :=
  match o with
  | none => false
  | some l => !l.isEmpty

/-- Header-title normalization used by `_get_column_map`:
`str(getattr(col, "title", "") or "").strip().lower()`. -/
def normalizeTitle (s : String) : String :=
  pyLower (pyStrip s)

/-- Python dict assignment `d[k] = v` on an association list with unique keys:
replace the value at an existing key in place, else append. -/
def dictInsert : List (String × Nat) → String → Nat → List (String × Nat)
  | [], k, v => [(k, v)]
  | p :: rest, k, v =>
    if p.1 = k then (k, v) :: rest else p :: dictInsert rest k v

/-- Python dict lookup `d[k]` (as an `Option`). -/
def dictLookup : List (String × Nat) → String → Option Nat
  | [], _ => none
  | p :: rest, k => if p.1 = k then some p.2 else dictLookup rest k

/-- The `for i, col in enumerate(self.columns)` loop of `_get_column_map`:
insert each non-empty normalized title with its index (`i` is the index of the
next column to visit). -/
def buildFullMapFrom (i : Nat) (m : List (String × Nat)) : List String → List (String × Nat)
  | [] => m
  | c :: cs =>
    let title := normalizeTitle c
    buildFullMapFrom (i + 1) (if title = "" then m else dictInsert m title i) cs

/-- `full_map` of `_get_column_map`: normalized title → column index,
duplicates keeping the last occurring index. -/
def buildFullMap (colTitles : List String) : List (String × Nat) :=
  buildFullMapFrom 0 [] colTitles

/-- The non-raising computation of `_get_column_map`: build `full_map`, then
apply the include whitelist or the exclude blacklist (both lowercased). -/
def columnMapCore (colTitles : List String) (includeCols excludeCols : Option (List String)) :
    List (String × Nat) :=
  let fullMap := buildFullMap colTitles
  if truthyList includeCols then
    fullMap.filter (fun p => ((includeCols.getD []).map pyLower).contains p.1)
  else if truthyList excludeCols then
    fullMap.filter (fun p => !((excludeCols.getD []).map pyLower).contains p.1)
  else
    fullMap

/-- `_get_column_map`: raises `ValueError` when both `include_cols` and
`exclude_cols` are truthy, else returns the filtered title → index map. -/
def getColumnMap (colTitles : List String) (includeCols excludeCols : Option (List String)) :
    Except PyError (List (String × Nat)) :=
  if truthyList includeCols && truthyList excludeCols then
    .error PyError.valueError
  else
    .ok (columnMapCore colTitles includeCols excludeCols)

/-- A grid cell as seen through `GetCell`: its scripting type string and its
`changeable` flag.  (A `GuiComboBox` cell is wrapped in `GuiVComponent` by
`_update_cell` before the same `.text` assignment, so the wrap does not change
the recorded driver operation.) -/
structure Cell where
  ctype : String
  changeable : Bool
deriving DecidableEq, Repr

/-- The live grid as the Table Filler observes it through the driver:
vertical scroll-range maximum, visible row count, column header titles, the
cell at each (row, column), and whether the error-dialog check
(`raise_if_error_dialog`) reports an error. -/
structure Grid where
  scrollMax : Nat
  visibleRowCount : Nat
  colTitles : List String
  cell : Nat → Nat → Cell
  dialogError : Bool

/-- A row record (Python dict): key → value, where a present key may still map
to `None`. -/
abbrev Row := List (String × Option String)

/-- Python `row.get(col)` combined with `col in row`: `some (some v)` when the
key is present with a non-`None` value. -/
def rowLookup : Row → String → Option (Option String)
  | [], _ => none
  | p :: rest, k => if p.1 = k then some p.2 else rowLookup rest k

/-- `_update_cell`: fetch the cell, optionally focus it, and write
`str(value).strip()` if the cell is changeable (else log a warning). -/
def updateCell (g : Grid) (rowIdx colIdx : Nat) (value : String) (setFocus : Bool) : List Ev :=
  [Ev.getCell rowIdx colIdx]
    ++ (if setFocus then [Ev.cellSetFocus rowIdx colIdx] else [])
    ++ (if (g.cell rowIdx colIdx).changeable then
          [Ev.setCellText rowIdx colIdx (pyStrip value)]
        else [Ev.logWarning])

/-- `_upate_row_cells` (name as in the source): for every column of the column
map, write the row's value for that column when present and non-`None`. -/
def upateRowCells (g : Grid) (rowIdx : Nat) (row : Row) (setFocus : Bool) :
    List (String × Nat) → List Ev
  | [] => []
  | (col, colIdx) :: rest =>
    (match rowLookup row col with
     | some (some v) => updateCell g rowIdx colIdx v setFocus
     | _ => []) ++ upateRowCells g rowIdx row setFocus rest

/-- The driver operations of `_paginate_table`: send the pagination key,
dismiss popups, check for an error dialog. -/
def paginateEvs (key : VKey) : List Ev :=
  [Ev.sendVKey key, Ev.dismissPopups, Ev.raiseIfErrorDialog]

/-- The driver operations of the final commit of `_fill_table`. -/
def commitEvs : List Ev :=
  [Ev.pressEnter, Ev.dismissPopups, Ev.raiseIfErrorDialog]

/-- The row loop of `_fill_table`, with the current page (starting at 1) and
the current row index.  Returns the outcome, the (page, row index) each input
record was written at (in input order), and the driver trace.  Pagination
fires after writing a record at row index `visible_rows - 1`; the cursor then
resumes at `next_row_idx_after_pagination`. -/
def fillTableGo (g : Grid) (colMap : List (String × Nat)) (visibleRows : Nat)
    (paginationKey : VKey) (nextRowIdxAfterPagination : Nat) (setFocus : Bool) :
    List Row → Nat → Nat → Except PyError Unit × List (Nat × Nat) × List Ev
  | [], _page, _idx =>
    if g.dialogError then (.error PyError.sapTableConfigurationError, [], commitEvs)
    else (.ok (), [], commitEvs)
  | row :: rest, page, idx =>
    let cellEvs := upateRowCells g idx row setFocus colMap
    if (idx : Int) = (visibleRows : Int) - 1 then
      if g.dialogError then
        (.error PyError.sapTableConfigurationError, [(page, idx)], cellEvs ++ paginateEvs paginationKey)
      else
        let r := fillTableGo g colMap visibleRows paginationKey nextRowIdxAfterPagination setFocus
          rest (page + 1) nextRowIdxAfterPagination
        (r.1, (page, idx) :: r.2.1, cellEvs ++ paginateEvs paginationKey ++ [Ev.refresh] ++ r.2.2)
    else
      let r := fillTableGo g colMap visibleRows paginationKey nextRowIdxAfterPagination setFocus
        rest page (idx + 1)
      (r.1, (page, idx) :: r.2.1, cellEvs ++ r.2.2)

/-- `_fill_table`: run the row loop from page 1, row index 0, then commit. -/
def fillTable (g : Grid) (colMap : List (String × Nat)) (visibleRows : Nat) (data : List Row)
    (paginationKey : VKey) (nextRowIdxAfterPagination : Nat) (setFocus : Bool) :
    Except PyError Unit × List (Nat × Nat) × List Ev :=
  fillTableGo g colMap visibleRows paginationKey nextRowIdxAfterPagination setFocus data 1 0

/-- `GuiTableControl.fill`: validate the arguments, resolve the column map and
the grid metrics, pick the pagination strategy from the scroll-range maximum
(zero ⇒ empty ⇒ growth mode; non-zero ⇒ overwrite mode with a scroll reset and
a refresh first), and delegate to `_fill_table`. -/
def tcFill (g : Grid) (data : List Row) (columns excludeColumns : Option (List String))
    (setFocus : Bool) : Except PyError Unit × List (Nat × Nat) × List Ev :=
  if truthyList columns && truthyList excludeColumns then
    (.error PyError.valueError, [], [])
  else if data.isEmpty then
    (.error PyError.valueError, [], [])
  else
    match getColumnMap g.colTitles columns excludeColumns with
    | .error e => (.error e, [], [Ev.readColumns])
    | .ok colMap =>
      let isTableEmpty := g.scrollMax = 0
      let resetEvs := if isTableEmpty then [] else [Ev.setScrollPos 0, Ev.refresh]
      let paginationKey := if isTableEmpty then VKey.ENTER else VKey.PAGE_DOWN
      let nextRowIdxAfterPagination := if isTableEmpty then 1 else 0
      let r := fillTable g colMap g.visibleRowCount data paginationKey
        nextRowIdxAfterPagination setFocus
      (r.1, r.2.1, [Ev.readColumns, Ev.readVisibleRowCount, Ev.readScrollMax] ++ resetEvs ++ r.2.2)

/-- Does a trace event send a pagination/commit virtual key? -/
def isSendVKeyEv : Ev → Bool
  | Ev.sendVKey _ => true
  | _ => false

/-- The expected result of `GuiTableControl.fill` once a pagination key, a
post-pagination resume row index and the scroll-reset prefix are fixed: the
stated fill mode, delegated to `_fill_table`. -/
def modeResult (g : Grid) (data : List Row) (cols excl : Option (List String)) (sf : Bool)
    (key : VKey) (resume : Nat) (resetEvs : List Ev) :
    Except PyError Unit × List (Nat × Nat) × List Ev :=
  let r := fillTable g (columnMapCore g.colTitles cols excl) g.visibleRowCount data key resume sf
  (r.1, r.2.1, ([Ev.readColumns, Ev.readVisibleRowCount, Ev.readScrollMax] ++ resetEvs) ++ r.2.2)

/-- A one-column grid in overwrite-free growth state (scroll maximum 0). -/
def c2Grid0 : Grid := ⟨0, 2, ["A"], fun _ _ => ⟨"GuiTextField", true⟩, false⟩

/-- The same grid already holding rows (scroll maximum 5): overwrite mode. -/
def c2Grid5 : Grid := ⟨5, 2, ["A"], fun _ _ => ⟨"GuiTextField", true⟩, false⟩

/-- A single row record for the mode-selection witness. -/
def c2Data : List Row := [[("a", some "1")]]

/-- The C3 scenario grid: growth mode (scroll maximum 0), 5 visible rows, one
column titled `Qty`, all cells changeable, no error dialogs. -/
def c3Grid : Grid := ⟨0, 5, ["Qty"], fun _ _ => ⟨"GuiTextField", true⟩, false⟩

/-- The C3 scenario data: 7 row records for the normalized column key. -/
def c3Data : List Row :=
  [[("qty", some "1")], [("qty", some "2")], [("qty", some "3")], [("qty", some "4")],
   [("qty", some "5")], [("qty", some "6")], [("qty", some "7")]]

/-! ## Transaction Runner screen filling (`transaction_runner.py`,
`TransactionRunner._fill_screen` / `_fill_text`)

`ElementType` is a Python `StrEnum` in which members with the same string
value are aliases of one member: `COMBOBOX` *is* `TEXT` (value `"text"`), and
`BUTTON`, `CHECKBOX`, `RADIO` and `TAB` are all one member with value
`"click"`.  The embedding therefore has one constructor per distinct value and
definitions for the Python member names. -/

inductive ElementType where
  | text
  | click
  | table
  | callable
deriving DecidableEq, Repr

def ElementType.TEXT : ElementType := ElementType.text

def ElementType.COMBOBOX : ElementType := ElementType.text

def ElementType.BUTTON : ElementType := ElementType.click

def ElementType.CHECKBOX : ElementType := ElementType.click

def ElementType.RADIO : ElementType := ElementType.click

def ElementType.TAB : ElementType := ElementType.click

def ElementType.TABLE : ElementType := ElementType.table

def ElementType.CALLABLE : ElementType := ElementType.callable

/-- `Element` pydantic model; a bound custom function is opaque to the claims,
so only its presence (`func is not None`) is kept. -/
structure Element where
  id : String
  type : ElementType
  name : String
  hasFunc : Bool
deriving DecidableEq, Repr

/-- The part of the `Screen` pydantic model `_fill_screen` reads (its
`on_entry`/`on_exit` actions belong to `_process_screen`, outside this
claim set). -/
structure ScreenCfg where
  name : String
  elements : List Element
  press_enter : Bool
deriving DecidableEq, Repr

/-- Driver oracle for a run: whether `find_by_id(id, raise_error=False)`
locates an element, whether the retried text write for an element id
ultimately raises (all 4 attempts fail; the attempt-level timing is modelled
by `fillTextRetry`), whether a delegated `GuiTableControl.fill` raises
(its internals are modelled by `tcFill`), and whether `raise_for_status`
reports an error-severity status after a screen commit. -/
structure RunEnv where
  findOk : String → Bool
  writeRaises : String → Bool
  tableFillRaises : String → Bool
  statusError : Bool

/-- Final outcome of `_fill_text` under its retry decorator: `.ok true` when a
value was written, `.ok false` when there was nothing to write or the element
was absent (logged and skipped), `.error` when every attempt raised (each
failed attempt sends the recovery ENTER before re-raising). -/
def fillTextResult (env : RunEnv) (e : Element) (data : Row) : Except PyError Bool × List Ev :=
  match rowLookup data e.name with
  | some (some v) =>
    if env.writeRaises e.id then
      (.error PyError.driverError, [Ev.findById e.id, Ev.pressEnter])
    else if env.findOk e.id then
      (.ok true, [Ev.findById e.id, Ev.setText e.id e.name v])
    else
      (.ok false, [Ev.findById e.id, Ev.logWarning])
  | _ => (.ok false, [])

/-- One iteration of the `_fill_screen` element loop: skip (and log) a name
already in `processed_elements`; otherwise dispatch on the element type —
TEXT (mark processed only when the write returned truthy), CALLABLE (function
required), TABLE (`table_columns.get` raises `AttributeError` when
`table_columns` is `None`, else delegate to the Table Filler and mark
processed), and any other type raises `ElementConfigurationError`. -/
def fillElem (env : RunEnv) (data : Row) (tableColumns : Option (List (String × List String)))
    (processed : List String) (e : Element) :
    Except PyError Unit × List String × List Ev :=
  if e.name ∈ processed then (.ok (), processed, [Ev.skipDuplicate e.name])
  else
    match e.type with
    | ElementType.text =>
      match fillTextResult env e data with
      | (.error err, evs) => (.error err, processed, evs)
      | (.ok true, evs) => (.ok (), e.name :: processed, evs)
      | (.ok false, evs) => (.ok (), processed, evs)
    | ElementType.callable =>
      if e.hasFunc then (.ok (), e.name :: processed, [Ev.callFunc e.name])
      else (.error PyError.elementConfigurationError, processed, [])
    | ElementType.table =>
      match tableColumns with
      | none => (.error PyError.attributeError, processed, [])
      | some _ =>
        if env.findOk e.id then
          if env.tableFillRaises e.id then
            (.error PyError.driverError, processed, [Ev.findById e.id, Ev.tableFill e.name])
          else
            (.ok (), e.name :: processed, [Ev.findById e.id, Ev.tableFill e.name])
        else
          (.error PyError.sapElementNotFound, processed, [Ev.findById e.id])
    | ElementType.click => (.error PyError.elementConfigurationError, processed, [])

/-- The element loop of `_fill_screen`: thread `processed_elements`,
accumulate the driver trace, and propagate the first raised exception (the
names already added stay in the set, as instance state does in Python). -/
def fillScreenGo (env : RunEnv) (data : Row)
    (tableColumns : Option (List (String × List String))) :
    List Element → List String → Except PyError Unit × List String × List Ev
  | [], P => (.ok (), P, [])
  | e :: rest, P =>
    match fillElem env data tableColumns P e with
    | (.error err, P1, evs) => (.error err, P1, evs)
    | (.ok _, P1, evs) =>
      let r := fillScreenGo env data tableColumns rest P1
      (r.1, r.2.1, evs ++ r.2.2)

/-- The screen-commit trail of `_fill_screen` when `press_enter` is set. -/
def screenCommitEvs : List Ev :=
  [Ev.pressEnter, Ev.dismissPopups, Ev.raiseForStatus]

/-- `_fill_screen`: run the element loop, then, when the screen's
`press_enter` flag is set, press ENTER, dismiss popups and check the status
bar (raising `SAPStatusBarError` on an error-severity status). -/
def fillScreen (env : RunEnv) (s : ScreenCfg) (data : Row)
    (tableColumns : Option (List (String × List String))) (P : List String) :
    Except PyError Unit × List String × List Ev :=
  match fillScreenGo env data tableColumns s.elements P with
  | (.error err, P1, evs) => (.error err, P1, evs)
  | (.ok _, P1, evs) =>
    if s.press_enter then
      if env.statusError then (.error PyError.sapStatusBarError, P1, evs ++ screenCommitEvs)
      else (.ok (), P1, evs ++ screenCommitEvs)
    else (.ok (), P1, evs)

/-- A whole run as far as `processed_elements` is concerned: the screens of
the screen order processed in sequence, each with the data and the
`table_columns` its order entry selects (the data selection itself is
`_get_data_for_screen`, which never touches `processed_elements`). -/
def runScreens (env : RunEnv) :
    List (ScreenCfg × Row × Option (List (String × List String))) → List String →
    Except PyError Unit × List String × List Ev
  | [], P => (.ok (), P, [])
  | (s, d, tc) :: rest, P =>
    match fillScreen env s d tc P with
    | (.error err, P1, evs) => (.error err, P1, evs)
    | (.ok _, P1, evs) =>
      let r := runScreens env rest P1
      (r.1, r.2.1, evs ++ r.2.2)

/-- Is this trace event a fill of the element with the given logical name
(a text write, a callable invocation, or a table delegation)? -/
def fillEvFor (name : String) : Ev → Bool
  | Ev.setText _ n _ => n == name
  | Ev.callFunc n => n == name
  | Ev.tableFill n => n == name
  | _ => false

/-- How many times a trace fills the element with the given name. -/
def fillCount (evs : List Ev) (name : String) : Nat :=
  (evs.filter (fillEvFor name)).length

/-- The dedup invariant of `processed_elements` relative to a starting set:
the set only grows, names already in the set are never filled again, no name
is filled twice, and (absent an exception) every filled name ends up in the
set. -/
def DedupInv (P : List String) (r : Except PyError Unit × List String × List Ev) : Prop :=
  P ⊆ r.2.1
  ∧ ∀ name : String,
      (name ∈ P → fillCount r.2.2 name = 0)
      ∧ fillCount r.2.2 name ≤ 1
      ∧ (r.1 = .ok () → fillCount r.2.2 name = 1 → name ∈ r.2.1)

/-- Driver oracle for the runner witnesses: every element resolvable, no
write or table failure, no error status. -/
def envW : RunEnv := ⟨fun _ => true, fun _ => false, fun _ => false, false⟩

/-- A text element for the runner witnesses. -/
def elemW : Element := ⟨"wnd[0]/usr/ctxtMATNR", ElementType.TEXT, "matnr", false⟩

/-- A one-element screen for the runner witnesses. -/
def screenW : ScreenCfg := ⟨"Header", [elemW], true⟩

/-- Data for the runner witnesses. -/
def dataW : Row := [("matnr", some "100-100")]

/-- A table element for the C9/C10 witnesses. -/
def tableElemW : Element := ⟨"wnd[0]/usr/tblITEMS", ElementType.TABLE, "items", false⟩

/-! ## `_fill_text` retry policy

`_fill_text` is decorated `@retry(reraise=True, stop=stop_after_attempt(4),
wait=wait_fixed(1))`; its body sends one recovery ENTER on every caught
exception before re-raising to the decorator.  `fillTextRetry` models one
decorated call, parameterized by which attempts fail: per attempt it records
the write attempt's outcome, the recovery ENTER on failure, and the fixed
1-unit wait before the next attempt; the Boolean result is `true` when some
attempt returned normally and `false` when attempt 4 failed and the original
exception was re-raised. -/

inductive FtEv where
  | writeOk
  | writeFail
  | pressEnter
  | sleep (units : Nat)
deriving DecidableEq, Repr

/-- `stop_after_attempt(4)`. -/
def retryStopAttempts : Nat := 4

/-- `wait_fixed(1)`. -/
def retryWaitUnits : Nat := 1

/-- One decorated `_fill_text` call, from `attempt` with `remaining` attempts
allowed. -/
def fillTextRetry (attemptFails : Nat → Bool) : Nat → Nat → Bool × List FtEv
  | _, 0 => (false, [])
  | attempt, remaining + 1 =>
    if attemptFails attempt then
      if remaining = 0 then (false, [FtEv.writeFail, FtEv.pressEnter])
      else
        let r := fillTextRetry attemptFails (attempt + 1) remaining
        (r.1, [FtEv.writeFail, FtEv.pressEnter, FtEv.sleep retryWaitUnits] ++ r.2)
    else (true, [FtEv.writeOk])

/-- A full decorated `_fill_text` call: attempt 1, up to 4 attempts. -/
def fillTextAttempts (attemptFails : Nat → Bool) : Bool × List FtEv :=
  fillTextRetry attemptFails 1 retryStopAttempts

/-- Number of write attempts recorded in a retry trace. -/
def ftAttemptCount (evs : List FtEv) : Nat :=
  (evs.filter fun ev => ev == FtEv.writeOk || ev == FtEv.writeFail).length

/-- Number of successful (actually performed) writes in a retry trace. -/
def ftWriteCount (evs : List FtEv) : Nat :=
  (evs.filter fun ev => ev == FtEv.writeOk).length

end SapGuiEngine

open SapGuiEngine

/-- C1: the Transaction Runner never reaches execution for the screen order
`["Header", "ACTION_CLICK_wnd[0]/tbar[1]/btn[5]", "Items"]`: decoding the
`ACTION_CLICK_...` entry appends the click action but then falls through to
`ActionType("click_wnd[0]/tbar[1]/btn[5]")`, which raises `ValueError` inside
`_build_screen_order`, so `TransactionRunner.__init__` fails and no screen is
ever processed — contradicting the claimed Header → click → Items execution. -/
theorem build_screen_order_click_entry_raises :
    buildScreenOrder
      [RawEntry.str "Header",
       RawEntry.str "ACTION_CLICK_wnd[0]/tbar[1]/btn[5]",
       RawEntry.str "Items"] = .error PyError.valueError := by
  rfl

/-- C4: constructing the Transaction Runner with no explicit screen order
(`screen_order = None`, the default) does not fall back to the screen map's
insertion order: `_build_screen_order(None)` iterates `None` and raises
`TypeError`, so `__init__` fails — contradicting the claim and the
constructor's own docstring. -/
theorem default_screen_order_raises_type_error :
    initScreenOrder none ["Header", "Items"] = .error PyError.typeError := by
  rfl

/-! ## Table Filler lemmas and claim theorems -/

/-- Looking up the just-assigned key of a Python dict yields the new value. -/
theorem dictLookup_dictInsert (m : List (String × Nat)) (k : String) (v : Nat) :
    dictLookup (dictInsert m k v) k = some v := by
  induction m with
  | nil => simp [dictInsert, dictLookup]
  | cons p rest ih =>
    by_cases hp : p.1 = k
    · simp [dictInsert, hp, dictLookup]
    · simp [dictInsert, hp, dictLookup, ih]

/-- Appending one more header with a non-empty normalized title to the
`_get_column_map` header loop assigns that title the appended header's index. -/
theorem buildFullMapFrom_append (h : String) (hne : normalizeTitle h ≠ "") :
    ∀ (ts : List String) (i : Nat) (m : List (String × Nat)),
      buildFullMapFrom i m (ts ++ [h]) =
        dictInsert (buildFullMapFrom i m ts) (normalizeTitle h) (i + ts.length) := by
  intro ts
  induction ts with
  | nil => intro i m; simp [buildFullMapFrom, hne]
  | cons c cs ih =>
    intro i m
    simp only [List.cons_append, buildFullMapFrom, List.append_eq]
    rw [ih]
    simp only [List.length_cons]
    congr 1
    omega

/-- C2: for every grid and valid arguments, the fill mode is a pure function
of the grid's vertical scroll-range maximum: zero ⇒ growth mode (confirm/ENTER
pagination, resume row index 1, no scroll reset); non-zero ⇒ overwrite mode
(page-down pagination, resume row index 0, scroll position reset to 0 and the
bound grid reference refreshed before filling). -/
theorem fill_mode_determined_by_scroll_max (g : Grid) (data : List Row)
    (cols excl : Option (List String)) (sf : Bool)
    (hv : (truthyList cols && truthyList excl) = false) (hd : data ≠ []) :
    (g.scrollMax = 0 →
      tcFill g data cols excl sf = modeResult g data cols excl sf VKey.ENTER 1 [])
    ∧ (g.scrollMax ≠ 0 →
      tcFill g data cols excl sf =
        modeResult g data cols excl sf VKey.PAGE_DOWN 0 [Ev.setScrollPos 0, Ev.refresh]) := by
  have hde : data.isEmpty = false := by
    cases data with
    | nil => exact absurd rfl hd
    | cons a l => rfl
  constructor
  · intro h0
    simp [tcFill, getColumnMap, hv, hde, h0, modeResult]
  · intro h0
    simp [tcFill, getColumnMap, hv, hde, h0, modeResult]

theorem fill_mode_determined_by_scroll_max_witness :
    tcFill c2Grid0 c2Data none none false = modeResult c2Grid0 c2Data none none false VKey.ENTER 1 []
    ∧ tcFill c2Grid5 c2Data none none false =
        modeResult c2Grid5 c2Data none none false VKey.PAGE_DOWN 0 [Ev.setScrollPos 0, Ev.refresh] :=
  ⟨(fill_mode_determined_by_scroll_max c2Grid0 c2Data none none false rfl (by decide)).1 rfl,
   (fill_mode_determined_by_scroll_max c2Grid5 c2Data none none false rfl (by decide)).2 (by decide)⟩

/-- C3: a growth-mode fill of 7 records into a grid with 5 visible rows writes
records 1–5 at row indices 0–4 of page 1, pages exactly once (immediately
after the record at row index 4), resumes the cursor at row index 1, and
writes records 6–7 at row indices 1–2 of page 2. -/
theorem growth_mode_fill_seven_records :
    tcFill c3Grid c3Data none none false =
      (.ok (),
       [(1, 0), (1, 1), (1, 2), (1, 3), (1, 4), (2, 1), (2, 2)],
       [Ev.readColumns, Ev.readVisibleRowCount, Ev.readScrollMax,
        Ev.getCell 0 0, Ev.setCellText 0 0 "1",
        Ev.getCell 1 0, Ev.setCellText 1 0 "2",
        Ev.getCell 2 0, Ev.setCellText 2 0 "3",
        Ev.getCell 3 0, Ev.setCellText 3 0 "4",
        Ev.getCell 4 0, Ev.setCellText 4 0 "5",
        Ev.sendVKey VKey.ENTER, Ev.dismissPopups, Ev.raiseIfErrorDialog, Ev.refresh,
        Ev.getCell 1 0, Ev.setCellText 1 0 "6",
        Ev.getCell 2 0, Ev.setCellText 2 0 "7",
        Ev.pressEnter, Ev.dismissPopups, Ev.raiseIfErrorDialog])
    ∧ ((tcFill c3Grid c3Data none none false).2.2.filter isSendVKeyEv).length = 1 :=
  ⟨rfl, rfl⟩

/-- C5: the Table Filler's argument validation fires before any driver
operation: truthy `columns` together with truthy `exclude_columns`, or an
empty `data` list, yield a `ValueError` with an empty driver trace. -/
theorem tcFill_validation_before_driver :
    (∀ (g : Grid) (data : List Row) (cols excl : Option (List String)) (sf : Bool),
        truthyList cols = true → truthyList excl = true →
        tcFill g data cols excl sf = (.error PyError.valueError, [], []))
    ∧ (∀ (g : Grid) (cols excl : Option (List String)) (sf : Bool),
        tcFill g [] cols excl sf = (.error PyError.valueError, [], [])) := by
  constructor
  · intro g data cols excl sf h1 h2
    simp [tcFill, h1, h2]
  · intro g cols excl sf
    by_cases h : (truthyList cols && truthyList excl) = true
    · simp [tcFill, h]
    · simp only [Bool.not_eq_true] at h
      simp [tcFill, h]

theorem tcFill_validation_before_driver_witness :
    tcFill c2Grid0 c2Data (some ["x"]) (some ["y"]) false = (.error PyError.valueError, [], [])
    ∧ tcFill c2Grid0 [] none none false = (.error PyError.valueError, [], []) :=
  ⟨tcFill_validation_before_driver.1 c2Grid0 c2Data (some ["x"]) (some ["y"]) false rfl rfl,
   tcFill_validation_before_driver.2 c2Grid0 none none false⟩

/-- C8: column resolution normalizes header titles by trimming and lowercasing
before comparison — `columns = ["Item"]` keeps exactly the entry of the header
`"  ITEM  "` under the normalized title `"item"` — and when two headers
normalize to the same title the map keeps the index of the last occurrence. -/
theorem column_map_normalizes_and_keeps_last :
    (getColumnMap ["  ITEM  ", "Qty"] (some ["Item"]) none = .ok [("item", 0)])
    ∧ (∀ (ts : List String) (h : String), normalizeTitle h ≠ "" →
        dictLookup (buildFullMap (ts ++ [h])) (normalizeTitle h) = some ts.length) := by
  constructor
  · rfl
  · intro ts h hne
    unfold buildFullMap
    rw [buildFullMapFrom_append h hne ts 0 []]
    simpa using dictLookup_dictInsert (buildFullMapFrom 0 [] ts) (normalizeTitle h) ts.length

theorem column_map_normalizes_and_keeps_last_witness :
    (getColumnMap ["  ITEM  ", "Qty"] (some ["Item"]) none = .ok [("item", 0)])
    ∧ dictLookup (buildFullMap (["Other", "item"] ++ ["  ITEM  "])) (normalizeTitle "  ITEM  ")
        = some 2 :=
  ⟨column_map_normalizes_and_keeps_last.1,
   column_map_normalizes_and_keeps_last.2 ["Other", "item"] "  ITEM  " (by decide)⟩

/-! ## Transaction Runner dedup lemmas and claim theorems -/

theorem fillCount_append (a b : List Ev) (name : String) :
    fillCount (a ++ b) name = fillCount a name + fillCount b name := by
  simp [fillCount, List.filter_append]

/-- A step that fills nothing preserves the dedup invariant over an unchanged
set, whatever its outcome. -/
theorem dedupInv_noFill (P : List String) (res : Except PyError Unit) (evs : List Ev)
    (hz : ∀ name, fillCount evs name = 0) : DedupInv P (res, P, evs) := by
  refine ⟨List.Subset.refl _, fun name => ⟨fun _ => hz name, ?_, fun _ hc => ?_⟩⟩
  · rw [hz name]; omega
  · rw [hz name] at hc; simp at hc

/-- A step that fills exactly the fresh name `n` and adds it to the set
satisfies the dedup invariant. -/
theorem dedupInv_fillAdded (P : List String) (n : String) (hn : n ∉ P) (evs : List Ev)
    (hone : ∀ name, fillCount evs name = if n = name then 1 else 0) :
    DedupInv P (.ok (), n :: P, evs) := by
  refine ⟨List.subset_cons_self _ _, fun name => ⟨fun hm => ?_, ?_, fun _ hc => ?_⟩⟩
  · rw [hone name]
    have hne : n ≠ name := by intro h; exact hn (by rw [h]; exact hm)
    simp [hne]
  · rw [hone name]; split <;> omega
  · rw [hone name] at hc
    by_cases h : n = name
    · subst h; exact List.mem_cons_self n P
    · simp [h] at hc

/-- A step that fills the fresh name `n` but then raises (so `n` is not added)
satisfies the dedup invariant: the raise aborts the run, so the ok-clause is
vacuous. -/
theorem dedupInv_fillNotAdded (P : List String) (n : String) (hn : n ∉ P) (err : PyError)
    (evs : List Ev) (hone : ∀ name, fillCount evs name = if n = name then 1 else 0) :
    DedupInv P (.error err, P, evs) := by
  refine ⟨List.Subset.refl _, fun name => ⟨fun hm => ?_, ?_, fun hok _ => ?_⟩⟩
  · rw [hone name]
    have hne : n ≠ name := by intro h; exact hn (by rw [h]; exact hm)
    simp [hne]
  · rw [hone name]; split <;> omega
  · simp at hok

/-- Sequencing two dedup-invariant steps (the second starting from the first's
final set) is dedup-invariant. -/
theorem dedupInv_seq (P : List String) (r1 r2 : Except PyError Unit × List String × List Ev)
    (h1 : DedupInv P r1) (hok : r1.1 = .ok ()) (h2 : DedupInv r1.2.1 r2) :
    DedupInv P (r2.1, r2.2.1, r1.2.2 ++ r2.2.2) := by
  obtain ⟨hsub1, hc1⟩ := h1
  obtain ⟨hsub2, hc2⟩ := h2
  refine ⟨List.Subset.trans hsub1 hsub2, fun name => ?_⟩
  obtain ⟨hm1, hle1, hok1⟩ := hc1 name
  obtain ⟨hm2, hle2, hok2⟩ := hc2 name
  refine ⟨fun hm => ?_, ?_, fun hr2 hcnt => ?_⟩
  · rw [fillCount_append, hm1 hm, hm2 (hsub1 hm)]
  · rw [fillCount_append]
    by_cases hz : fillCount r1.2.2 name = 0
    · rw [hz]; simpa using hle2
    · have he1 : fillCount r1.2.2 name = 1 := by omega
      rw [he1, hm2 (hok1 hok he1)]
  · rw [fillCount_append] at hcnt
    by_cases hz : fillCount r1.2.2 name = 0
    · rw [hz] at hcnt
      simp at hcnt
      exact hok2 hr2 hcnt
    · have he1 : fillCount r1.2.2 name = 1 := by omega
      exact hsub2 (hok1 hok he1)

/-- Appending fill-free driver events (e.g. a screen commit) preserves the
dedup invariant, for any new outcome that is only ok when the old one was. -/
theorem dedupInv_postfix (P : List String) (r : Except PyError Unit × List String × List Ev)
    (h : DedupInv P r) (evs2 : List Ev) (hz : ∀ name, fillCount evs2 name = 0)
    (res2 : Except PyError Unit) (himp : res2 = .ok () → r.1 = .ok ()) :
    DedupInv P (res2, r.2.1, r.2.2 ++ evs2) := by
  obtain ⟨hsub, hc⟩ := h
  refine ⟨hsub, fun name => ?_⟩
  obtain ⟨hm, hle, hok⟩ := hc name
  refine ⟨fun hmm => ?_, ?_, fun hr hcnt => ?_⟩
  · rw [fillCount_append, hm hmm, hz name]
  · rw [fillCount_append, hz name]; omega
  · rw [fillCount_append, hz name] at hcnt
    simp at hcnt
    exact hok (himp hr) hcnt

/-- The four outcome shapes of a decorated `_fill_text` call. -/
theorem fillTextResult_cases (env : RunEnv) (e : Element) (data : Row) :
    fillTextResult env e data = (.ok false, [])
    ∨ fillTextResult env e data = (.error PyError.driverError, [Ev.findById e.id, Ev.pressEnter])
    ∨ (∃ v, fillTextResult env e data = (.ok true, [Ev.findById e.id, Ev.setText e.id e.name v]))
    ∨ fillTextResult env e data = (.ok false, [Ev.findById e.id, Ev.logWarning]) := by
  rcases h : rowLookup data e.name with _ | ⟨_ | v⟩
  · exact Or.inl (by simp [fillTextResult, h])
  · exact Or.inl (by simp [fillTextResult, h])
  · by_cases hw : env.writeRaises e.id
    · exact Or.inr (Or.inl (by simp [fillTextResult, h, hw]))
    · by_cases hf : env.findOk e.id
      · exact Or.inr (Or.inr (Or.inl ⟨v, by simp [fillTextResult, h, hw, hf]⟩))
      · exact Or.inr (Or.inr (Or.inr (by simp [fillTextResult, h, hw, hf])))

theorem fillCount_eval_setText (i n v name : String) :
    fillCount [Ev.findById i, Ev.setText i n v] name = if n = name then 1 else 0 := by
  by_cases h : n = name
  · subst h; simp [fillCount, fillEvFor]
  · have hb : (n == name) = false := beq_eq_false_iff_ne.mpr h
    simp [fillCount, fillEvFor, hb, h]

theorem fillCount_eval_callFunc (n name : String) :
    fillCount [Ev.callFunc n] name = if n = name then 1 else 0 := by
  by_cases h : n = name
  · subst h; simp [fillCount, fillEvFor]
  · have hb : (n == name) = false := beq_eq_false_iff_ne.mpr h
    simp [fillCount, fillEvFor, hb, h]

theorem fillCount_eval_tableFill (i n name : String) :
    fillCount [Ev.findById i, Ev.tableFill n] name = if n = name then 1 else 0 := by
  by_cases h : n = name
  · subst h; simp [fillCount, fillEvFor]
  · have hb : (n == name) = false := beq_eq_false_iff_ne.mpr h
    simp [fillCount, fillEvFor, hb, h]

/-- One `_fill_screen` loop iteration preserves the dedup invariant. -/
theorem fillElem_dedupInv (env : RunEnv) (data : Row)
    (tc : Option (List (String × List String))) (P : List String) (e : Element) :
    DedupInv P (fillElem env data tc P e) := by
  obtain ⟨eid, ety, ename, ef⟩ := e
  by_cases hmem : ename ∈ P
  · simp only [fillElem, if_pos hmem]
    exact dedupInv_noFill P _ _ (fun name => by simp [fillCount, fillEvFor])
  · simp only [fillElem, if_neg hmem]
    cases ety with
    | text =>
      rcases fillTextResult_cases env ⟨eid, ElementType.text, ename, ef⟩ data
        with h | h | ⟨v, h⟩ | h <;> rw [h]
      · exact dedupInv_noFill P _ _ (fun name => rfl)
      · exact dedupInv_noFill P _ _ (fun name => by simp [fillCount, fillEvFor])
      · exact dedupInv_fillAdded P ename hmem _ (fun name => fillCount_eval_setText eid ename v name)
      · exact dedupInv_noFill P _ _ (fun name => by simp [fillCount, fillEvFor])
    | callable =>
      cases ef with
      | true => exact dedupInv_fillAdded P ename hmem _ (fun name => fillCount_eval_callFunc ename name)
      | false => exact dedupInv_noFill P _ _ (fun name => rfl)
    | table =>
      cases tc with
      | none => exact dedupInv_noFill P _ _ (fun name => rfl)
      | some tcl =>
        by_cases hfo : env.findOk eid
        · by_cases htr : env.tableFillRaises eid
          · simp only [hfo, htr, if_pos, if_true]
            exact dedupInv_fillNotAdded P ename hmem _ _
              (fun name => fillCount_eval_tableFill eid ename name)
          · simp only [hfo, htr, if_true, if_false, Bool.false_eq_true, ite_false]
            exact dedupInv_fillAdded P ename hmem _
              (fun name => fillCount_eval_tableFill eid ename name)
        · simp only [hfo, Bool.false_eq_true, ite_false]
          exact dedupInv_noFill P _ _ (fun name => by simp [fillCount, fillEvFor])
    | click => exact dedupInv_noFill P _ _ (fun name => rfl)

/-- The whole `_fill_screen` element loop preserves the dedup invariant. -/
theorem fillScreenGo_dedupInv (env : RunEnv) (data : Row)
    (tc : Option (List (String × List String))) :
    ∀ (es : List Element) (P : List String), DedupInv P (fillScreenGo env data tc es P) := by
  intro es
  induction es with
  | nil => intro P; exact dedupInv_noFill P _ _ (fun name => rfl)
  | cons e rest ih =>
    intro P
    have h1 := fillElem_dedupInv env data tc P e
    rcases hfe : fillElem env data tc P e with ⟨res, P1, evs⟩
    rw [hfe] at h1
    cases res with
    | error err =>
      have heq : fillScreenGo env data tc (e :: rest) P = (.error err, P1, evs) := by
        simp [fillScreenGo, hfe]
      rw [heq]
      exact h1
    | ok u =>
      cases u
      have heq : fillScreenGo env data tc (e :: rest) P =
          ((fillScreenGo env data tc rest P1).1, (fillScreenGo env data tc rest P1).2.1,
           evs ++ (fillScreenGo env data tc rest P1).2.2) := by
        simp [fillScreenGo, hfe]
      rw [heq]
      exact dedupInv_seq P (.ok (), P1, evs) (fillScreenGo env data tc rest P1) h1 rfl (ih P1)

/-- `_fill_screen` (loop plus optional commit) preserves the dedup invariant. -/
theorem fillScreen_dedupInv (env : RunEnv) (s : ScreenCfg) (data : Row)
    (tc : Option (List (String × List String))) (P : List String) :
    DedupInv P (fillScreen env s data tc P) := by
  have h := fillScreenGo_dedupInv env data tc s.elements P
  rcases hgo : fillScreenGo env data tc s.elements P with ⟨res, P1, evs⟩
  rw [hgo] at h
  cases res with
  | error err =>
    have heq : fillScreen env s data tc P = (.error err, P1, evs) := by
      simp [fillScreen, hgo]
    rw [heq]; exact h
  | ok u =>
    cases u
    by_cases hpe : s.press_enter
    · by_cases hse : env.statusError
      · have heq : fillScreen env s data tc P =
            (.error PyError.sapStatusBarError, P1, evs ++ screenCommitEvs) := by
          simp [fillScreen, hgo, hpe, hse]
        rw [heq]
        exact dedupInv_postfix P (.ok (), P1, evs) h screenCommitEvs (fun name => rfl) _
          (by intro hcontra; simp at hcontra)
      · have heq : fillScreen env s data tc P = (.ok (), P1, evs ++ screenCommitEvs) := by
          simp [fillScreen, hgo, hpe, hse]
        rw [heq]
        exact dedupInv_postfix P (.ok (), P1, evs) h screenCommitEvs (fun name => rfl) _
          (fun _ => rfl)
    · have heq : fillScreen env s data tc P = (.ok (), P1, evs) := by
        simp [fillScreen, hgo, hpe]
      rw [heq]; exact h

/-- A whole run preserves the dedup invariant. -/
theorem runScreens_dedupInv (env : RunEnv) :
    ∀ (screens : List (ScreenCfg × Row × Option (List (String × List String))))
      (P : List String), DedupInv P (runScreens env screens P) := by
  intro screens
  induction screens with
  | nil => intro P; exact dedupInv_noFill P _ _ (fun name => rfl)
  | cons sc rest ih =>
    intro P
    obtain ⟨s, d, tc⟩ := sc
    have h1 := fillScreen_dedupInv env s d tc P
    rcases hfs : fillScreen env s d tc P with ⟨res, P1, evs⟩
    rw [hfs] at h1
    cases res with
    | error err =>
      have heq : runScreens env ((s, d, tc) :: rest) P = (.error err, P1, evs) := by
        simp [runScreens, hfs]
      rw [heq]
      exact h1
    | ok u =>
      cases u
      have heq : runScreens env ((s, d, tc) :: rest) P =
          ((runScreens env rest P1).1, (runScreens env rest P1).2.1,
           evs ++ (runScreens env rest P1).2.2) := by
        simp [runScreens, hfs]
      rw [heq]
      exact dedupInv_seq P (.ok (), P1, evs) (runScreens env rest P1) h1 rfl (ih P1)

/-- C7: for every run, an element name is filled at most once; an element
whose name is already in the run-scoped `processed_elements` set is skipped
with only the skip log; and the set only grows for the run's lifetime. -/
theorem run_scoped_element_dedup :
    (∀ (env : RunEnv)
       (screens : List (ScreenCfg × Row × Option (List (String × List String))))
       (name : String), fillCount (runScreens env screens []).2.2 name ≤ 1)
    ∧ (∀ (env : RunEnv) (data : Row) (tc : Option (List (String × List String)))
         (processed : List String) (e : Element), e.name ∈ processed →
        fillElem env data tc processed e = (.ok (), processed, [Ev.skipDuplicate e.name]))
    ∧ (∀ (env : RunEnv)
         (screens : List (ScreenCfg × Row × Option (List (String × List String))))
         (processed : List String), processed ⊆ (runScreens env screens processed).2.1) := by
  refine ⟨?_, ?_, ?_⟩
  · intro env screens name
    exact ((runScreens_dedupInv env screens []).2 name).2.1
  · intro env data tc processed e hmem
    simp [fillElem, hmem]
  · intro env screens processed
    exact (runScreens_dedupInv env screens processed).1

theorem run_scoped_element_dedup_witness :
    fillCount (runScreens envW [(screenW, dataW, none)] []).2.2 "matnr" ≤ 1
    ∧ fillElem envW dataW none ["matnr"] elemW = (.ok (), ["matnr"], [Ev.skipDuplicate "matnr"])
    ∧ [] ⊆ (runScreens envW [(screenW, dataW, none)] []).2.1 :=
  ⟨run_scoped_element_dedup.1 envW [(screenW, dataW, none)] "matnr",
   run_scoped_element_dedup.2.1 envW dataW none ["matnr"] elemW (by decide),
   run_scoped_element_dedup.2.2 envW [(screenW, dataW, none)] []⟩

/-- C9: a TABLE element reached by `_fill_screen` from a screen-order entry
without a `table_columns` mapping (`table_columns = None`, as for a plain
screen-name entry) raises `AttributeError` at the `table_columns.get` call:
the driver trace is empty, so the Table Filler is never invoked. -/
theorem table_elem_without_table_columns_raises (env : RunEnv) (data : Row)
    (processed : List String) (e : Element)
    (ht : e.type = ElementType.TABLE) (hp : e.name ∉ processed) :
    fillElem env data none processed e = (.error PyError.attributeError, processed, []) := by
  obtain ⟨eid, ety, ename, ef⟩ := e
  simp only at ht hp
  subst ht
  simp [fillElem, hp, ElementType.TABLE]

theorem table_elem_without_table_columns_raises_witness :
    fillElem envW dataW none [] tableElemW = (.error PyError.attributeError, [], []) :=
  table_elem_without_table_columns_raises envW dataW [] tableElemW rfl (by decide)

/-- C10: an element declared BUTTON, CHECKBOX, RADIO or TAB (one shared
`StrEnum` member of value `"click"`) that is not yet processed makes
`_fill_screen` raise `ElementConfigurationError` ("Unknown element type"),
while COMBOBOX is the same member as TEXT (shared value `"text"`) and is
handled identically. -/
theorem click_value_elements_not_fillable (env : RunEnv) (data : Row)
    (tc : Option (List (String × List String))) (processed : List String) (e : Element) :
    (e.type = ElementType.BUTTON → e.name ∉ processed →
      fillElem env data tc processed e = (.error PyError.elementConfigurationError, processed, []))
    ∧ ElementType.BUTTON = ElementType.CHECKBOX
    ∧ ElementType.CHECKBOX = ElementType.RADIO
    ∧ ElementType.RADIO = ElementType.TAB
    ∧ ElementType.COMBOBOX = ElementType.TEXT
    ∧ (∀ (eid ename : String) (ef : Bool),
        fillElem env data tc processed ⟨eid, ElementType.COMBOBOX, ename, ef⟩ =
          fillElem env data tc processed ⟨eid, ElementType.TEXT, ename, ef⟩) := by
  refine ⟨?_, rfl, rfl, rfl, rfl, fun _ _ _ => rfl⟩
  intro ht hp
  obtain ⟨eid, ety, ename, ef⟩ := e
  simp only at ht hp
  subst ht
  simp [fillElem, hp, ElementType.BUTTON]

theorem click_value_elements_not_fillable_witness :
    fillElem envW dataW none [] ⟨"wnd[0]/tbar[0]/btn[11]", ElementType.BUTTON, "save", false⟩
        = (.error PyError.elementConfigurationError, [], [])
    ∧ ElementType.COMBOBOX = ElementType.TEXT :=
  ⟨(click_value_elements_not_fillable envW dataW none []
      ⟨"wnd[0]/tbar[0]/btn[11]", ElementType.BUTTON, "save", false⟩).1 rfl (by decide),
   (click_value_elements_not_fillable envW dataW none []
      ⟨"wnd[0]/tbar[0]/btn[11]", ElementType.BUTTON, "save", false⟩).2.2.2.2.1⟩

/-! ## Retry policy lemmas and claim theorem -/

theorem ftAttemptCount_append (a b : List FtEv) :
    ftAttemptCount (a ++ b) = ftAttemptCount a + ftAttemptCount b := by
  simp [ftAttemptCount, List.filter_append]

/-- A decorated call starting with `remaining` allowed attempts performs at
most `remaining` write attempts. -/
theorem fillTextRetry_attempts_le (f : Nat → Bool) :
    ∀ (remaining attempt : Nat), ftAttemptCount (fillTextRetry f attempt remaining).2 ≤ remaining := by
  intro remaining
  induction remaining with
  | zero => intro attempt; simp [fillTextRetry, ftAttemptCount]
  | succ r ih =>
    intro attempt
    by_cases hf : f attempt
    · by_cases hr : r = 0
      · subst hr
        have heq : fillTextRetry f attempt 1 = (false, [FtEv.writeFail, FtEv.pressEnter]) := by
          simp [fillTextRetry, hf]
        rw [heq]
        simp [ftAttemptCount]
      · have heq : fillTextRetry f attempt (r + 1) =
            ((fillTextRetry f (attempt + 1) r).1,
             [FtEv.writeFail, FtEv.pressEnter, FtEv.sleep retryWaitUnits]
               ++ (fillTextRetry f (attempt + 1) r).2) := by
          simp [fillTextRetry, hf, hr]
        rw [heq]
        have hsplit := ftAttemptCount_append
          [FtEv.writeFail, FtEv.pressEnter, FtEv.sleep retryWaitUnits]
          (fillTextRetry f (attempt + 1) r).2
        have hpre : ftAttemptCount [FtEv.writeFail, FtEv.pressEnter, FtEv.sleep retryWaitUnits] = 1 := rfl
        have := ih (attempt + 1)
        simp only [hsplit, hpre]
        omega
    · have heq : fillTextRetry f attempt (r + 1) = (true, [FtEv.writeOk]) := by
        simp [fillTextRetry, hf]
      rw [heq]
      simp [ftAttemptCount]

/-- C6: the single-field write is retried up to 4 attempts with a fixed
1-unit wait between attempts, sending one recovery ENTER on every caught
failure before re-surfacing the exception; a write failing twice then
succeeding on the 3rd attempt completes without raising and performs exactly
one write; a write failing all 4 attempts re-raises after the 4th recovery
ENTER. -/
theorem fill_text_retry_policy :
    (∀ f : Nat → Bool, ftAttemptCount (fillTextAttempts f).2 ≤ retryStopAttempts)
    ∧ fillTextAttempts (fun n => decide (n < 3)) =
        (true, [FtEv.writeFail, FtEv.pressEnter, FtEv.sleep 1,
                FtEv.writeFail, FtEv.pressEnter, FtEv.sleep 1, FtEv.writeOk])
    ∧ ftWriteCount (fillTextAttempts (fun n => decide (n < 3))).2 = 1
    ∧ fillTextAttempts (fun _ => true) =
        (false, [FtEv.writeFail, FtEv.pressEnter, FtEv.sleep 1,
                 FtEv.writeFail, FtEv.pressEnter, FtEv.sleep 1,
                 FtEv.writeFail, FtEv.pressEnter, FtEv.sleep 1,
                 FtEv.writeFail, FtEv.pressEnter]) :=
  ⟨fun f => fillTextRetry_attempts_le f retryStopAttempts 1, rfl, rfl, rfl⟩
